import Mathlib

/-!
Shallow embedding of `src/geoalchemy/geodb.py` (the GeoDB backend adapter
of the geoalchemy library) and proofs about it.

The file models:
* the geometry-column metadata (`GeometryExtensionColumn`, its type flags),
* the SQL expressions produced by the custom compiler
  `geodb_functions._within_distance` (as the AST `SqlExpr`),
* the statements executed by the DDL hooks `handle_ddl_before_drop` /
  `handle_ddl_after_create` (as lists of `Stmt`, with the exact SQL text
  the Python string formatting produces),
* the static function-name mapping `GeoDBSpatialDialect.__functions`,
* result materialization `process_result`, and
* the dynamic attribute fallback of `GeoDBComparator.__getattr__` /
  `GeoDBPersistentSpatialElement.__getattr__`.

Classes of the repository that geodb.py imports (geoalchemy.base,
geoalchemy.functions, geoalchemy.mysql, geoalchemy.dialect) are not under
src/; where a claim depends on them they are modelled from the spec and
marked as such in their doc comments.
-/

/-- Metadata of a geometry column type: the per-column flags consumed by the
dialect (`type.spatial_index` and `type.srid` in the Python source). -/
structure GeomColumnType where
  spatial_index : Bool
  srid : Int
deriving DecidableEq, Repr

/-- A `GeometryExtensionColumn`: a column object carrying its table's full
name (`geom1.table.fullname`), its key (`geom1.key`) and its type. -/
structure GeometryExtensionColumn where
  tableFullname : String
  key : String
  type : GeomColumnType
deriving DecidableEq, Repr

/-- A geometry operand passed to `_within_distance`: either a
`GeometryExtensionColumn` (the `isinstance` test succeeds) or any other
expression (identified abstractly by a tag). -/
inductive GeomOperand where
  | col (c : GeometryExtensionColumn)
  | other (tag : Nat)
deriving DecidableEq, Repr

/-- An opaque dialect object, as handed to `supports_rtree`. -/
structure Dialect where
  tag : Nat
deriving DecidableEq, Repr

/-- The compiler object handed to the custom compiler function; it carries
the dialect (`compiler.dialect`). -/
structure Compiler where
  dialect : Dialect
deriving DecidableEq, Repr

/-- The bind (connection/engine) handed to the DDL hooks; it carries the
dialect (`bind.dialect`). Named `BindConn` because `Bind` is taken in Lean. -/
structure BindConn where
  dialect : Dialect
deriving DecidableEq, Repr

/-- SQL boolean expressions produced by `_within_distance`, abstracted to the
constructors that function can emit:
* `distanceLe g1 g2 d` is `func.Distance(geom1, geom2) <= distance`;
* `rowidInBBox tbl idx g2 d` is the bounding-box pre-filter
  `table(tbl, column("rowid")).c.rowid.in_(select([table(idx, column("pkid")).c.pkid]).where(...))`
  whose WHERE clause compares xmin/xmax/ymin/ymax against
  `MbrMinX/MbrMaxX/MbrMinY/MbrMaxY(geom2)` minus/plus `distance`;
* `and_ a b` is `and_(a, b)`. -/
inductive SqlExpr where
  | distanceLe (geom1 : GeomOperand) (geom2 : Nat) (distance : Int)
  | rowidInBBox (rowidTable idxTable : String) (geom2 : Nat) (distance : Int)
  | and_ (a b : SqlExpr)
deriving DecidableEq, Repr

/-- Conjuncts of an expression: flattens nested `and_` nodes. -/
def SqlExpr.conjuncts : SqlExpr → List SqlExpr
  | SqlExpr.and_ a b => a.conjuncts ++ b.conjuncts
  | e => [e]

namespace GeoDBSpatialDialect

/-- `GeoDBSpatialDialect.supports_rtree(dialect)`: the backend capability
flag. The source returns `False` for every dialect argument. -/
def supports_rtree (_dialect : Dialect) : Bool :=
  false

end GeoDBSpatialDialect

namespace geodb_functions

/-- `geodb_functions._within_distance(compiler, geom1, geom2, distance)`:
if `geom1` is a `GeometryExtensionColumn` whose type has `spatial_index`
set and `GeoDBSpatialDialect.supports_rtree(compiler.dialect)` holds,
return the conjunction of the exact distance predicate and the
bounding-box subquery against the auxiliary index table
`idx_<table.fullname>_<key>`; otherwise return the exact distance
predicate alone. -/
def _within_distance (compiler : Compiler) (geom1 : GeomOperand) (geom2 : Nat)
    (distance : Int) : SqlExpr :=
  match geom1 with
  | GeomOperand.col c =>
    if c.type.spatial_index && GeoDBSpatialDialect.supports_rtree compiler.dialect then
      SqlExpr.and_ (SqlExpr.distanceLe geom1 geom2 distance)
        (SqlExpr.rowidInBBox c.tableFullname
          ("idx_" ++ c.tableFullname ++ "_" ++ c.key) geom2 distance)
    else
      SqlExpr.distanceLe geom1 geom2 distance
  | GeomOperand.other _ => SqlExpr.distanceLe geom1 geom2 distance

/-- The body of `_within_distance` with the call
`GeoDBSpatialDialect.supports_rtree(compiler.dialect)` abstracted into the
boolean parameter `rtree`; otherwise verbatim the same branch structure.
`within_distance_eq_core` below ties it back to `_within_distance`. -/
def within_distance_core (rtree : Bool) (geom1 : GeomOperand) (geom2 : Nat)
    (distance : Int) : SqlExpr :=
  match geom1 with
  | GeomOperand.col c =>
    if c.type.spatial_index && rtree then
      SqlExpr.and_ (SqlExpr.distanceLe geom1 geom2 distance)
        (SqlExpr.rowidInBBox c.tableFullname
          ("idx_" ++ c.tableFullname ++ "_" ++ c.key) geom2 distance)
    else
      SqlExpr.distanceLe geom1 geom2 distance
  | GeomOperand.other _ => SqlExpr.distanceLe geom1 geom2 distance

end geodb_functions

/-- The table descriptor handed to the DDL hooks (`table.name`). -/
structure SchemaTable where
  name : String
deriving DecidableEq, Repr

/-- The column descriptor handed to the DDL hooks (`column.name`,
`column.type.spatial_index`, `column.type.srid`). -/
structure SchemaColumn where
  name : String
  type : GeomColumnType
deriving DecidableEq, Repr

/-- Statements executed against the bind by the DDL hooks:
* `execSql s` is `bind.execute(s)` for a raw SQL string `s`;
* `execSelectDisableSpatialIndex t c ac` is
  `bind.execute(select([func.DisableSpatialIndex(t, c)]).execution_options(autocommit=ac))`. -/
inductive Stmt where
  | execSql (sql : String)
  | execSelectDisableSpatialIndex (tableName columnName : String) (autocommit : Bool)
deriving DecidableEq, Repr

/-- The single-quote character, written via its code point. -/
def singleQuote : String :=
  String.singleton (Char.ofNat 39)

/-- The string `"""\n  ALTER TABLE %s ADD %s BLOB\n  """ % (table.name, column.name)`
with the exact whitespace of the Python triple-quoted literal. -/
def alterTableAddBlobSql (tableName columnName : String) : String :=
  "\n                     ALTER TABLE " ++ tableName ++ " ADD " ++ columnName ++
    " BLOB\n                     "

/-- The string `"""\n  DROP TABLE idx_%s_%s\n  """ % (table.name, column.name)`
with the exact whitespace of the Python triple-quoted literal. -/
def dropIdxTableSql (tableName columnName : String) : String :=
  "\n                         DROP TABLE idx_" ++ tableName ++ "_" ++ columnName ++
    "\n                         "

/-- The index-creation SQL built by `handle_ddl_after_create`, with the exact
text of the Python literal, stray trailing double quote included:
`SELECT CreateSpatialIndex(null, '"%s"', '"%s"', '"%s"')"` formatted with
`(table.name, column.name, column.type.srid)`. -/
def createSpatialIndexSql (tableName columnName : String) (srid : Int) : String :=
  "\n                         SELECT CreateSpatialIndex(null, " ++
    singleQuote ++ "\"" ++ tableName ++ "\"" ++ singleQuote ++ ", " ++
    singleQuote ++ "\"" ++ columnName ++ "\"" ++ singleQuote ++ ", " ++
    singleQuote ++ "\"" ++ toString srid ++ "\"" ++ singleQuote ++
    ")\"\n                         "

namespace GeoDBSpatialDialect

/-- `GeoDBSpatialDialect.handle_ddl_before_drop(bind, table, column)`: when
the column type has `spatial_index` set and
`supports_rtree(bind.dialect)` holds, execute the `DisableSpatialIndex`
select (with autocommit) and then drop the auxiliary index table
`idx_<table.name>_<column.name>`; otherwise execute nothing. The returned
list is the sequence of statements executed, in order. -/
def handle_ddl_before_drop (bind : BindConn) (tbl : SchemaTable)
    (col : SchemaColumn) : List Stmt :=
  if col.type.spatial_index && supports_rtree bind.dialect then
    [Stmt.execSelectDisableSpatialIndex tbl.name col.name true,
     Stmt.execSql (dropIdxTableSql tbl.name col.name)]
  else
    []

/-- The body of `handle_ddl_before_drop` with the call
`supports_rtree(bind.dialect)` abstracted into the boolean parameter
`rtree`; otherwise verbatim the same branch structure. -/
def handle_ddl_before_drop_core (rtree : Bool) (tbl : SchemaTable)
    (col : SchemaColumn) : List Stmt :=
  if col.type.spatial_index && rtree then
    [Stmt.execSelectDisableSpatialIndex tbl.name col.name true,
     Stmt.execSql (dropIdxTableSql tbl.name col.name)]
  else
    []

/-- `GeoDBSpatialDialect.handle_ddl_after_create(bind, table, column)`:
always execute the ALTER TABLE adding the BLOB storage column; when the
column type has `spatial_index` set and `supports_rtree(bind.dialect)`
holds, additionally execute the `CreateSpatialIndex` select. The returned
list is the sequence of statements executed, in order. -/
def handle_ddl_after_create (bind : BindConn) (tbl : SchemaTable)
    (col : SchemaColumn) : List Stmt :=
  Stmt.execSql (alterTableAddBlobSql tbl.name col.name) ::
    (if col.type.spatial_index && supports_rtree bind.dialect then
      [Stmt.execSql (createSpatialIndexSql tbl.name col.name col.type.srid)]
    else
      [])

/-- The body of `handle_ddl_after_create` with the call
`supports_rtree(bind.dialect)` abstracted into the boolean parameter
`rtree`; otherwise verbatim the same branch structure. -/
def handle_ddl_after_create_core (rtree : Bool) (tbl : SchemaTable)
    (col : SchemaColumn) : List Stmt :=
  Stmt.execSql (alterTableAddBlobSql tbl.name col.name) ::
    (if col.type.spatial_index && rtree then
      [Stmt.execSql (createSpatialIndexSql tbl.name col.name col.type.srid)]
    else
      [])

end GeoDBSpatialDialect

theorem handle_ddl_before_drop_eq_core (bind : BindConn) (tbl : SchemaTable)
    (col : SchemaColumn) :
    GeoDBSpatialDialect.handle_ddl_before_drop bind tbl col =
      GeoDBSpatialDialect.handle_ddl_before_drop_core
        (GeoDBSpatialDialect.supports_rtree bind.dialect) tbl col := by
  rfl

theorem handle_ddl_after_create_eq_core (bind : BindConn) (tbl : SchemaTable)
    (col : SchemaColumn) :
    GeoDBSpatialDialect.handle_ddl_after_create bind tbl col =
      GeoDBSpatialDialect.handle_ddl_after_create_core
        (GeoDBSpatialDialect.supports_rtree bind.dialect) tbl col := by
  rfl

theorem within_distance_eq_core (compiler : Compiler) (geom1 : GeomOperand)
    (geom2 : Nat) (distance : Int) :
    geodb_functions._within_distance compiler geom1 geom2 distance =
      geodb_functions.within_distance_core
        (GeoDBSpatialDialect.supports_rtree compiler.dialect) geom1 geom2 distance := by
  cases geom1 <;> rfl

/-- Modelled from the spec (geoalchemy.base is not under src/): a
`WKBSpatialElement(desc, srid)` is "a wrapper around a raw binary geometry
payload plus its coordinate reference system identifier"; the raw binary
payload is modelled as a list of bytes. -/
structure WKBSpatialElement where
  desc : List Nat
  srid : Int
deriving DecidableEq, Repr

/-- `GeoDBPersistentSpatialElement(desc)`: stores its argument in `desc`
(the `__init__` in src/geoalchemy/geodb.py). -/
structure GeoDBPersistentSpatialElement where
  desc : WKBSpatialElement
deriving DecidableEq, Repr

namespace GeoDBSpatialDialect

/-- `GeoDBSpatialDialect.process_result(self, value, type)`: returns
`GeoDBPersistentSpatialElement(WKBSpatialElement(value, type.srid))`.
The `self` dialect argument is taken (as in the Python method) but the
body never reads it. -/
def process_result (_self : Dialect) (value : List Nat)
    (type : GeomColumnType) : GeoDBPersistentSpatialElement :=
  GeoDBPersistentSpatialElement.mk (WKBSpatialElement.mk value type.srid)

end GeoDBSpatialDialect

/-- The abstract spatial operation identifiers used as keys of
`GeoDBSpatialDialect.__functions`. Modelled from the spec: the spec says
the framework may invoke "the base functions, the MySQL MBR functions, and
the GeoDB-specific svg and fgf" (geoalchemy.functions and geoalchemy.mysql
are not under src/, so this universe is taken from the key set the source
enumerates: the two spatial-element classes, the `functions.*` attributes,
`geodb_functions.svg` / `geodb_functions.fgf`, the `mysql_functions.mbr_*`
attributes, and `functions._within_distance`). -/
inductive FunctionKey where
  | keyWKTSpatialElement
  | keyWKBSpatialElement
  | wkt
  | wkb
  | dimension
  | srid
  | geometry_type
  | is_valid
  | is_empty
  | is_simple
  | is_closed
  | is_ring
  | num_points
  | point_n
  | length
  | area
  | x
  | y
  | centroid
  | boundary
  | buffer
  | convex_hull
  | envelope
  | start_point
  | end_point
  | transform
  | equals
  | distance
  | within_distance
  | disjoint
  | intersects
  | touches
  | crosses
  | within
  | overlaps
  | gcontains
  | covers
  | covered_by
  | intersection
  | union
  | collect
  | extent
  | svg
  | fgf
  | mbr_equal
  | mbr_disjoint
  | mbr_intersects
  | mbr_touches
  | mbr_within
  | mbr_overlaps
  | mbr_contains
  | within_distance_impl
deriving DecidableEq, Repr, BEq

/-- A value of the function mapping: either a SQL function name string
(possibly empty, as for `functions.wkb`) or a callable compiler override
(the only one in the table is `geodb_functions._within_distance`). -/
inductive FunctionValue where
  | sqlFunctionName (name : String)
  | customCompiler (f : Compiler → GeomOperand → Nat → Int → SqlExpr)

namespace GeoDBSpatialDialect

/-- The class attribute `GeoDBSpatialDialect.__functions`: the static
associative table from abstract operation identifiers to SQL function
names or compiler overrides, entry for entry as in the source (the
`functions.aggregate_union` entry is commented out there and hence
absent here too). -/
def functionsTable : List (FunctionKey × FunctionValue) :=
  [(FunctionKey.keyWKTSpatialElement, FunctionValue.sqlFunctionName "ST_GeomFromText"),
   (FunctionKey.keyWKBSpatialElement, FunctionValue.sqlFunctionName "ST_GeomFromWKB"),
   (FunctionKey.wkt, FunctionValue.sqlFunctionName "ST_AsText"),
   (FunctionKey.wkb, FunctionValue.sqlFunctionName ""),
   (FunctionKey.dimension, FunctionValue.sqlFunctionName "ST_Dimension"),
   (FunctionKey.srid, FunctionValue.sqlFunctionName "ST_SRID"),
   (FunctionKey.geometry_type, FunctionValue.sqlFunctionName "ST_GeometryType"),
   (FunctionKey.is_valid, FunctionValue.sqlFunctionName "ST_IsValid"),
   (FunctionKey.is_empty, FunctionValue.sqlFunctionName "ST_IsEmpty"),
   (FunctionKey.is_simple, FunctionValue.sqlFunctionName "ST_IsSimple"),
   (FunctionKey.is_closed, FunctionValue.sqlFunctionName "ST_IsClosed"),
   (FunctionKey.is_ring, FunctionValue.sqlFunctionName "ST_IsRing"),
   (FunctionKey.num_points, FunctionValue.sqlFunctionName "ST_NumPoints"),
   (FunctionKey.point_n, FunctionValue.sqlFunctionName "ST_PointN"),
   (FunctionKey.length, FunctionValue.sqlFunctionName "ST_Length"),
   (FunctionKey.area, FunctionValue.sqlFunctionName "ST_Area"),
   (FunctionKey.x, FunctionValue.sqlFunctionName "ST_X"),
   (FunctionKey.y, FunctionValue.sqlFunctionName "ST_Y"),
   (FunctionKey.centroid, FunctionValue.sqlFunctionName "ST_Centroid"),
   (FunctionKey.boundary, FunctionValue.sqlFunctionName "ST_Boundary"),
   (FunctionKey.buffer, FunctionValue.sqlFunctionName "ST_Buffer"),
   (FunctionKey.convex_hull, FunctionValue.sqlFunctionName "ST_ConvexHull"),
   (FunctionKey.envelope, FunctionValue.sqlFunctionName "ST_Envelope"),
   (FunctionKey.start_point, FunctionValue.sqlFunctionName "ST_StartPoint"),
   (FunctionKey.end_point, FunctionValue.sqlFunctionName "ST_EndPoint"),
   (FunctionKey.transform, FunctionValue.sqlFunctionName "ST_Transform"),
   (FunctionKey.equals, FunctionValue.sqlFunctionName "ST_Equals"),
   (FunctionKey.distance, FunctionValue.sqlFunctionName "ST_Distance"),
   (FunctionKey.within_distance, FunctionValue.sqlFunctionName "ST_DWithin"),
   (FunctionKey.disjoint, FunctionValue.sqlFunctionName "ST_Disjoint"),
   (FunctionKey.intersects, FunctionValue.sqlFunctionName "ST_Intersects"),
   (FunctionKey.touches, FunctionValue.sqlFunctionName "ST_Touches"),
   (FunctionKey.crosses, FunctionValue.sqlFunctionName "ST_Crosses"),
   (FunctionKey.within, FunctionValue.sqlFunctionName "ST_Within"),
   (FunctionKey.overlaps, FunctionValue.sqlFunctionName "ST_Overlaps"),
   (FunctionKey.gcontains, FunctionValue.sqlFunctionName "ST_Contains"),
   (FunctionKey.covers, FunctionValue.sqlFunctionName "ST_Covers"),
   (FunctionKey.covered_by, FunctionValue.sqlFunctionName "ST_CoveredBy"),
   (FunctionKey.intersection, FunctionValue.sqlFunctionName "ST_Intersection"),
   (FunctionKey.union, FunctionValue.sqlFunctionName "ST_Union"),
   (FunctionKey.collect, FunctionValue.sqlFunctionName "ST_Collect"),
   (FunctionKey.extent, FunctionValue.sqlFunctionName "ST_Extent"),
   (FunctionKey.svg, FunctionValue.sqlFunctionName "AsSVG"),
   (FunctionKey.fgf, FunctionValue.sqlFunctionName "AsFGF"),
   (FunctionKey.mbr_equal, FunctionValue.sqlFunctionName "MBREqual"),
   (FunctionKey.mbr_disjoint, FunctionValue.sqlFunctionName "MBRDisjoint"),
   (FunctionKey.mbr_intersects, FunctionValue.sqlFunctionName "MBRIntersects"),
   (FunctionKey.mbr_touches, FunctionValue.sqlFunctionName "MBRTouches"),
   (FunctionKey.mbr_within, FunctionValue.sqlFunctionName "MBRWithin"),
   (FunctionKey.mbr_overlaps, FunctionValue.sqlFunctionName "MBROverlaps"),
   (FunctionKey.mbr_contains, FunctionValue.sqlFunctionName "MBRContains"),
   (FunctionKey.within_distance_impl,
     FunctionValue.customCompiler geodb_functions._within_distance)]

end GeoDBSpatialDialect

/-- The mutable state a `GeoDBSpatialDialect` instance could act on: the
only class-level data is the `__functions` table. -/
structure DialectState where
  functions : List (FunctionKey × FunctionValue)

/-- The state as constructed: `__functions` holds the static table. -/
def initialDialectState : DialectState :=
  DialectState.mk GeoDBSpatialDialect.functionsTable

namespace GeoDBSpatialDialect

/-- `GeoDBSpatialDialect._get_function_mapping(self)`: returns
`GeoDBSpatialDialect.__functions`, i.e. the table held in the state. -/
def _get_function_mapping (st : DialectState) : List (FunctionKey × FunctionValue) :=
  st.functions

end GeoDBSpatialDialect

example :
    geodb_functions._within_distance ⟨⟨0⟩⟩
      (GeomOperand.col ⟨"lakes", "geom", ⟨true, 4326⟩⟩) 7 5 =
      SqlExpr.distanceLe (GeomOperand.col ⟨"lakes", "geom", ⟨true, 4326⟩⟩) 7 5 := by
  decide

example :
    geodb_functions.within_distance_core true
      (GeomOperand.col ⟨"lakes", "geom", ⟨true, 4326⟩⟩) 7 5 =
      SqlExpr.and_
        (SqlExpr.distanceLe (GeomOperand.col ⟨"lakes", "geom", ⟨true, 4326⟩⟩) 7 5)
        (SqlExpr.rowidInBBox "lakes" "idx_lakes_geom" 7 5) := by
  decide

/-- Attribute names of the `geodb_functions` class, as strings: its own
members `svg`, `fgf`, `_within_distance`, the members inherited from
`mysql_functions` (the MBR functions) and from the base `functions` class.
Modelled from the spec for the inherited part: geoalchemy.mysql and
geoalchemy.functions are not under src/, so the inherited attribute set is
taken to be the operations the spec names as invocable (the identifiers the
source's mapping table enumerates). -/
def geodb_functions.attrNames : List String :=
  ["svg", "fgf", "_within_distance",
   "mbr_equal", "mbr_disjoint", "mbr_intersects", "mbr_touches",
   "mbr_within", "mbr_overlaps", "mbr_contains",
   "wkt", "wkb", "dimension", "srid", "geometry_type", "is_valid",
   "is_empty", "is_simple", "is_closed", "is_ring", "num_points", "point_n",
   "length", "area", "x", "y", "centroid", "boundary", "buffer",
   "convex_hull", "envelope", "start_point", "end_point", "transform",
   "equals", "distance", "within_distance", "disjoint", "intersects",
   "touches", "crosses", "within", "overlaps", "gcontains", "covers",
   "covered_by", "intersection", "union", "collect", "extent"]

/-- Outcome of an attribute lookup through the `__getattr__` fallback:
* `baseAttr v`: the base class lookup succeeded with value `v`;
* `geodbFunctionCall n`: the base lookup raised AttributeError and
  `getattr(geodb_functions, n)(self)` was returned;
* `attrError n`: both lookups missed, so the final
  `getattr(geodb_functions, n)` raised AttributeError, which propagates. -/
inductive GetattrResult where
  | baseAttr (v : Nat)
  | geodbFunctionCall (name : String)
  | attrError (name : String)
deriving DecidableEq, Repr

namespace GeoDBComparator

/-- `GeoDBComparator.__getattr__(self, name)`: try
`SpatialComparator.__getattr__` first (modelled abstractly as the
function `base`, returning `none` where the base lookup raises
AttributeError — SpatialComparator is not under src/); on AttributeError
fall back to `getattr(geodb_functions, name)(self)`, which itself raises
AttributeError when `geodb_functions` has no attribute `name`. -/
def getattr (base : String → Option Nat) (name : String) : GetattrResult :=
  match base name with
  | some v => GetattrResult.baseAttr v
  | none =>
    if name ∈ geodb_functions.attrNames then
      GetattrResult.geodbFunctionCall name
    else
      GetattrResult.attrError name

end GeoDBComparator

namespace GeoDBPersistentSpatialElement

/-- `GeoDBPersistentSpatialElement.__getattr__(self, name)`: try
`PersistentSpatialElement.__getattr__` first (modelled abstractly as the
function `base` — PersistentSpatialElement is not under src/); on
AttributeError fall back to `getattr(geodb_functions, name)(self)`. -/
def getattr (base : String → Option Nat) (name : String) : GetattrResult :=
  match base name with
  | some v => GetattrResult.baseAttr v
  | none =>
    if name ∈ geodb_functions.attrNames then
      GetattrResult.geodbFunctionCall name
    else
      GetattrResult.attrError name

end GeoDBPersistentSpatialElement

/-- One invocation of a dialect operation, with its arguments. -/
inductive DialectOp where
  | getFunctionMapping
  | processResultOp (self : Dialect) (value : List Nat) (ctype : GeomColumnType)
  | ddlBeforeDrop (bind : BindConn) (tbl : SchemaTable) (col : SchemaColumn)
  | ddlAfterCreate (bind : BindConn) (tbl : SchemaTable) (col : SchemaColumn)
  | withinDistanceOp (compiler : Compiler) (geom1 : GeomOperand) (geom2 : Nat)
      (distance : Int)

/-- The value an operation returns. -/
inductive OpResult where
  | mapping (m : List (FunctionKey × FunctionValue))
  | element (e : GeoDBPersistentSpatialElement)
  | statements (l : List Stmt)
  | sqlexpr (e : SqlExpr)

/-- Run one dialect operation on the dialect state: each method reads the
state at most (only `_get_function_mapping` does) and none of them assigns
to `__functions`, so the state component is returned as in the source —
unchanged. -/
def applyOp (st : DialectState) : DialectOp → DialectState × OpResult
  | DialectOp.getFunctionMapping =>
      (st, OpResult.mapping (GeoDBSpatialDialect._get_function_mapping st))
  | DialectOp.processResultOp s v t =>
      (st, OpResult.element (GeoDBSpatialDialect.process_result s v t))
  | DialectOp.ddlBeforeDrop b t c =>
      (st, OpResult.statements (GeoDBSpatialDialect.handle_ddl_before_drop b t c))
  | DialectOp.ddlAfterCreate b t c =>
      (st, OpResult.statements (GeoDBSpatialDialect.handle_ddl_after_create b t c))
  | DialectOp.withinDistanceOp cp g1 g2 d =>
      (st, OpResult.sqlexpr (geodb_functions._within_distance cp g1 g2 d))

/-- Run a sequence of dialect operations, threading the state. -/
def runOps (st : DialectState) : List DialectOp → DialectState
  | [] => st
  | op :: rest => runOps (applyOp st op).1 rest

theorem applyOp_fst (st : DialectState) (op : DialectOp) :
    (applyOp st op).1 = st := by
  cases op <;> rfl

theorem runOps_eq (st : DialectState) (ops : List DialectOp) :
    runOps st ops = st := by
  induction ops with
  | nil => rfl
  | cons op rest ih =>
      rw [runOps, applyOp_fst]
      exact ih

/-- C1: for every pair of geometry operands and every distance threshold,
the expression returned by the distance rewrite contains the exact
predicate `Distance(geom1, geom2) <= distance` as a conjunct; the
bounding-box pre-filter, when present, is an additional conjunct and
never replaces the exact predicate. Stated over `within_distance_core`
(the body with the capability test abstracted), so it covers both the
branch the fixed-false flag selects and the bounding-box branch; the last
conjunct ties the core back to `_within_distance` itself. -/
theorem C1_within_distance_exact_conjunct (rtree : Bool) (compiler : Compiler)
    (geom1 : GeomOperand) (geom2 : Nat) (distance : Int) :
    SqlExpr.distanceLe geom1 geom2 distance ∈
        (geodb_functions.within_distance_core rtree geom1 geom2 distance).conjuncts ∧
    ((geodb_functions.within_distance_core rtree geom1 geom2 distance).conjuncts =
        [SqlExpr.distanceLe geom1 geom2 distance] ∨
      (∃ t i, (geodb_functions.within_distance_core rtree geom1 geom2 distance).conjuncts =
        [SqlExpr.distanceLe geom1 geom2 distance,
         SqlExpr.rowidInBBox t i geom2 distance])) ∧
    geodb_functions._within_distance compiler geom1 geom2 distance =
      geodb_functions.within_distance_core
        (GeoDBSpatialDialect.supports_rtree compiler.dialect) geom1 geom2 distance := by
  refine ⟨?_, ?_, within_distance_eq_core compiler geom1 geom2 distance⟩ <;>
  cases geom1 with
  | col c =>
      by_cases h : (c.type.spatial_index && rtree) = true <;>
        simp [geodb_functions.within_distance_core, h, SqlExpr.conjuncts]
  | other t =>
      simp [geodb_functions.within_distance_core, SqlExpr.conjuncts]

/-- C2: the backend capability flag `supports_rtree` is false for every
dialect, hence `_within_distance` takes the bounding-box branch for no
input whatsoever: for every `geom1`, `geom2` and `distance` it returns
only the simple exact distance predicate. -/
theorem C2_within_distance_always_simple (compiler : Compiler)
    (geom1 : GeomOperand) (geom2 : Nat) (distance : Int) :
    GeoDBSpatialDialect.supports_rtree compiler.dialect = false ∧
    geodb_functions._within_distance compiler geom1 geom2 distance =
      SqlExpr.distanceLe geom1 geom2 distance := by
  refine ⟨rfl, ?_⟩
  cases geom1 with
  | col c =>
      simp [geodb_functions._within_distance, GeoDBSpatialDialect.supports_rtree]
  | other t => rfl

/-- C9: since `supports_rtree` is fixed to `False`,
`handle_ddl_before_drop` executes no statements for any input under this
dialect — even when the column type has `spatial_index` set. -/
theorem C9_before_drop_executes_nothing (bind : BindConn) (tbl : SchemaTable)
    (col : SchemaColumn) :
    GeoDBSpatialDialect.handle_ddl_before_drop bind tbl col = [] := by
  simp [GeoDBSpatialDialect.handle_ddl_before_drop,
    GeoDBSpatialDialect.supports_rtree]

/-- C3: `handle_ddl_after_create` on a column whose type is not marked
spatially indexed executes exactly one statement, the ALTER TABLE adding
the BLOB storage column, and nothing else; on a spatially indexed column
with the capability flag enabled it additionally executes the
index-creation statement, ALTER TABLE first, index creation second.
Stated over `handle_ddl_after_create_core` (the body with the capability
test abstracted, so the enabled-flag case is not vacuous); the last
conjunct ties the core back to the hook itself. -/
theorem C3_after_create_statements (rtree : Bool) (bind : BindConn)
    (tbl : SchemaTable) (col : SchemaColumn) :
    (col.type.spatial_index = false →
      GeoDBSpatialDialect.handle_ddl_after_create_core rtree tbl col =
        [Stmt.execSql (alterTableAddBlobSql tbl.name col.name)]) ∧
    (col.type.spatial_index = true → rtree = true →
      GeoDBSpatialDialect.handle_ddl_after_create_core rtree tbl col =
        [Stmt.execSql (alterTableAddBlobSql tbl.name col.name),
         Stmt.execSql (createSpatialIndexSql tbl.name col.name col.type.srid)]) ∧
    GeoDBSpatialDialect.handle_ddl_after_create bind tbl col =
      GeoDBSpatialDialect.handle_ddl_after_create_core
        (GeoDBSpatialDialect.supports_rtree bind.dialect) tbl col := by
  refine ⟨fun h => ?_, fun h hr => ?_, handle_ddl_after_create_eq_core bind tbl col⟩ <;>
    simp [GeoDBSpatialDialect.handle_ddl_after_create_core, h]
  simp [hr]

/-- Witness for C3 at concrete inputs: a non-indexed column yields exactly
the ALTER TABLE statement, an indexed column with the flag enabled yields
ALTER TABLE then index creation. -/
theorem C3_after_create_statements_witness :
    GeoDBSpatialDialect.handle_ddl_after_create_core false
        (SchemaTable.mk "lakes") (SchemaColumn.mk "geom" (GeomColumnType.mk false 4326)) =
      [Stmt.execSql (alterTableAddBlobSql "lakes" "geom")] ∧
    GeoDBSpatialDialect.handle_ddl_after_create_core true
        (SchemaTable.mk "lakes") (SchemaColumn.mk "geom" (GeomColumnType.mk true 4326)) =
      [Stmt.execSql (alterTableAddBlobSql "lakes" "geom"),
       Stmt.execSql (createSpatialIndexSql "lakes" "geom" 4326)] :=
  ⟨(C3_after_create_statements false (BindConn.mk (Dialect.mk 0))
      (SchemaTable.mk "lakes") (SchemaColumn.mk "geom" (GeomColumnType.mk false 4326))).1 rfl,
   (C3_after_create_statements true (BindConn.mk (Dialect.mk 0))
      (SchemaTable.mk "lakes") (SchemaColumn.mk "geom" (GeomColumnType.mk true 4326))).2.1 rfl rfl⟩

/-- C4: `handle_ddl_before_drop` on a column whose type is not marked
spatially indexed executes no statements at all; on a spatially indexed
column with the capability flag enabled it executes the
`DisableSpatialIndex` call first and the DROP TABLE of the auxiliary
index table `idx_<table>_<column>` second. Stated over
`handle_ddl_before_drop_core` (the body with the capability test
abstracted); the last conjunct ties the core back to the hook itself. -/
theorem C4_before_drop_statements (rtree : Bool) (bind : BindConn)
    (tbl : SchemaTable) (col : SchemaColumn) :
    (col.type.spatial_index = false →
      GeoDBSpatialDialect.handle_ddl_before_drop_core rtree tbl col = []) ∧
    (col.type.spatial_index = true → rtree = true →
      GeoDBSpatialDialect.handle_ddl_before_drop_core rtree tbl col =
        [Stmt.execSelectDisableSpatialIndex tbl.name col.name true,
         Stmt.execSql (dropIdxTableSql tbl.name col.name)]) ∧
    GeoDBSpatialDialect.handle_ddl_before_drop bind tbl col =
      GeoDBSpatialDialect.handle_ddl_before_drop_core
        (GeoDBSpatialDialect.supports_rtree bind.dialect) tbl col := by
  refine ⟨fun h => ?_, fun h hr => ?_, handle_ddl_before_drop_eq_core bind tbl col⟩ <;>
    simp [GeoDBSpatialDialect.handle_ddl_before_drop_core, h]
  simp [hr]

/-- Witness for C4 at concrete inputs: a non-indexed column yields no
statements, an indexed column with the flag enabled yields disable then
drop, in that order. -/
theorem C4_before_drop_statements_witness :
    GeoDBSpatialDialect.handle_ddl_before_drop_core false
        (SchemaTable.mk "lakes") (SchemaColumn.mk "geom" (GeomColumnType.mk false 4326)) = [] ∧
    GeoDBSpatialDialect.handle_ddl_before_drop_core true
        (SchemaTable.mk "lakes") (SchemaColumn.mk "geom" (GeomColumnType.mk true 4326)) =
      [Stmt.execSelectDisableSpatialIndex "lakes" "geom" true,
       Stmt.execSql (dropIdxTableSql "lakes" "geom")] :=
  ⟨(C4_before_drop_statements false (BindConn.mk (Dialect.mk 0))
      (SchemaTable.mk "lakes") (SchemaColumn.mk "geom" (GeomColumnType.mk false 4326))).1 rfl,
   (C4_before_drop_statements true (BindConn.mk (Dialect.mk 0))
      (SchemaTable.mk "lakes") (SchemaColumn.mk "geom" (GeomColumnType.mk true 4326))).2.1 rfl rfl⟩

/-- C5: for every abstract spatial operation identifier the surrounding
framework may invoke (the base functions, the MySQL MBR functions, and
the GeoDB-specific svg and fgf, plus the two spatial-element construction
keys), looking it up in the GeoDB function mapping table yields either a
SQL function name string or a callable compiler override — never an
unmapped miss. -/
theorem C5_mapping_total (k : FunctionKey) :
    ∃ v : FunctionValue,
      GeoDBSpatialDialect.functionsTable.lookup k = some v ∧
      ((∃ s, v = FunctionValue.sqlFunctionName s) ∨
       (∃ f, v = FunctionValue.customCompiler f)) := by
  cases k <;>
    first
      | exact ⟨_, rfl, Or.inl ⟨_, rfl⟩⟩
      | exact ⟨_, rfl, Or.inr ⟨_, rfl⟩⟩

/-- C6: for every operation name absent from both the base comparator
attributes (modelled by `base` returning `none`) and the
`geodb_functions` attribute set, attribute lookup on `GeoDBComparator`
and on `GeoDBPersistentSpatialElement` ends in the explicit
AttributeError raised by `getattr(geodb_functions, name)`, rather than
returning silently or yielding a default value. -/
theorem C6_unknown_attr_raises (base : String → Option Nat) (name : String)
    (hbase : base name = none) (hgeodb : name ∉ geodb_functions.attrNames) :
    GeoDBComparator.getattr base name = GetattrResult.attrError name ∧
    GeoDBPersistentSpatialElement.getattr base name = GetattrResult.attrError name := by
  constructor <;>
    simp [GeoDBComparator.getattr, GeoDBPersistentSpatialElement.getattr,
      hbase, hgeodb]

/-- Witness for C6: the name `no_such_op` is absent from both lookup
sources, and both fallbacks end in the AttributeError result. -/
theorem C6_unknown_attr_raises_witness :
    ((fun _ => none : String → Option Nat) "no_such_op" = none) ∧
    "no_such_op" ∉ geodb_functions.attrNames ∧
    GeoDBComparator.getattr (fun _ => none) "no_such_op" =
      GetattrResult.attrError "no_such_op" ∧
    GeoDBPersistentSpatialElement.getattr (fun _ => none) "no_such_op" =
      GetattrResult.attrError "no_such_op" :=
  ⟨rfl, by decide,
   (C6_unknown_attr_raises (fun _ => none) "no_such_op" rfl (by decide)).1,
   (C6_unknown_attr_raises (fun _ => none) "no_such_op" rfl (by decide)).2⟩

/-- C7: `process_result` returns a persistent spatial element wrapping
exactly the raw payload it was given, tagged with exactly the column
type's declared SRID, and its result does not depend on the dialect
object it is called on: it is a pure transformation of its two
arguments. -/
theorem C7_process_result_pure (self other : Dialect) (value : List Nat)
    (type : GeomColumnType) :
    (GeoDBSpatialDialect.process_result self value type).desc.desc = value ∧
    (GeoDBSpatialDialect.process_result self value type).desc.srid = type.srid ∧
    GeoDBSpatialDialect.process_result self value type =
      GeoDBSpatialDialect.process_result other value type :=
  ⟨rfl, rfl, rfl⟩

/-- C8: the function mapping table is read-only after construction: no
dialect operation (function lookup, result materialization, either DDL
hook, or the distance rewrite) mutates it, so `_get_function_mapping`
returns the same table contents before and after any sequence of such
operations. -/
theorem C8_mapping_read_only (ops : List DialectOp) :
    GeoDBSpatialDialect._get_function_mapping (runOps initialDialectState ops) =
      GeoDBSpatialDialect._get_function_mapping initialDialectState ∧
    GeoDBSpatialDialect._get_function_mapping initialDialectState =
      GeoDBSpatialDialect.functionsTable := by
  rw [runOps_eq]
  exact ⟨rfl, rfl⟩

/-- Number of double-quote characters in a string. -/
def doubleQuoteCount (s : String) : Nat :=
  s.data.count (Char.ofNat 34)

theorem doubleQuoteCount_append (a b : String) :
    doubleQuoteCount (a ++ b) = doubleQuoteCount a + doubleQuoteCount b := by
  simp [doubleQuoteCount, String.data_append, List.count_append]

/-- The index-creation SQL template contributes exactly seven double-quote
characters of its own — an odd number, i.e. three balanced pairs plus the
stray trailing quote after the closing parenthesis, so the statement text
is malformed whenever the interpolated names are quote-free. -/
theorem doubleQuoteCount_createSpatialIndexSql (tn cn : String) (srid : Int) :
    doubleQuoteCount (createSpatialIndexSql tn cn srid) =
      7 + doubleQuoteCount tn + doubleQuoteCount cn +
        doubleQuoteCount (toString srid) := by
  simp only [createSpatialIndexSql, doubleQuoteCount_append]
  have h0 : doubleQuoteCount singleQuote = 0 := by decide
  have h1 : doubleQuoteCount "\"" = 1 := by decide
  have h2 : doubleQuoteCount "\n                         SELECT CreateSpatialIndex(null, " = 0 := by
    decide
  have h3 : doubleQuoteCount ", " = 0 := by decide
  have h4 : doubleQuoteCount ")\"\n                         " = 1 := by decide
  simp only [h0, h1, h2, h3, h4]
  omega

/-- C10: since `supports_rtree` is fixed to `False`, the index-creation
branch of `handle_ddl_after_create` is unreachable for every input, so
the hook always executes exactly one statement — the ALTER TABLE —
regardless of the column's `spatial_index` flag; and the SQL the
unreachable branch would have executed carries seven double-quote
characters of template text (three balanced pairs plus the stray trailing
quote), i.e. it is malformed. -/
theorem C10_after_create_single_statement (bind : BindConn) (tbl : SchemaTable)
    (col : SchemaColumn) :
    GeoDBSpatialDialect.handle_ddl_after_create bind tbl col =
      [Stmt.execSql (alterTableAddBlobSql tbl.name col.name)] ∧
    doubleQuoteCount (createSpatialIndexSql tbl.name col.name col.type.srid) =
      7 + doubleQuoteCount tbl.name + doubleQuoteCount col.name +
        doubleQuoteCount (toString col.type.srid) := by
  constructor
  · simp [GeoDBSpatialDialect.handle_ddl_after_create,
      GeoDBSpatialDialect.supports_rtree]
  · exact doubleQuoteCount_createSpatialIndexSql tbl.name col.name col.type.srid
